import Mathlib

/-!
Shallow embedding of the scoping/lifecycle engine of the `svcs` thread
integration: `src/svcs/thread.py` (thread-affine variant) and
`src/svcs/thread_alt.py` (context-propagated variant).

Modelling conventions:
* Python objects live in small heaps (`List (Nat × _)`) keyed by identity;
  fresh identities come from a `nextId` counter, so "identical instance"
  is identity of the `Nat` key.
* Every stateful operation returns `Except Err α × State`: the state is
  threaded even through a raised exception, exactly as Python leaves the
  interpreter state behind after a `raise`.
* The external `svcs.Registry` / `svcs.Container` collaborators are embedded
  from the interface the core needs (registrations keyed by service type;
  memoised resolution; on-close callbacks run in reverse registration order).
* Both scoping variants are modelled for a single thread / single logical
  context, which is the setting of every claim: a `contextvars.ContextVar`
  used within one context is a mutable slot with an identity (`Cell`).
-/

set_option autoImplicit false

namespace Svcs

/-- Python-level exceptions that the embedded code can raise. -/
inductive Err where
  | attributeError
  | keyError
  | serviceNotFound
  | runtimeError (msg : String)
  deriving Repr, DecidableEq

/-- A provider registered for a service type: a concrete value, or a factory
that builds a fresh instance on each invocation. -/
inductive Provider where
  | value (v : Nat)
  | factory
  deriving Repr, DecidableEq

/-- One registration of the external `svcs.Registry`: service type, provider,
the `enter` flag (record a teardown for the resolved instance), a ping flag
and an optional `on_registry_close` callback identity. -/
structure Registration where
  svcType : Nat
  provider : Provider
  enter : Bool
  ping : Bool
  onRegistryClose : Option Nat
  deriving Repr, DecidableEq

/-- The external `svcs.Registry`: an ordered table of registrations. -/
structure Registry where
  regs : List Registration
  deriving Repr, DecidableEq, Inhabited

/-- Observable teardown happenings, recorded in order of occurrence. -/
inductive Event where
  | registryOnClose (cb : Nat)
  | containerTeardown (inst : Nat)
  deriving Repr, DecidableEq

/-- The `on_registry_close` callbacks fired by the external
`svcs.Registry.close()` / `aclose()`: reverse registration order. -/
def registryCloseEvents (r : Registry) : List Event :=
  (r.regs.reverse.filterMap (fun reg => reg.onRegistryClose)).map Event.registryOnClose

/-- The external `svcs.Registry.close()` / `aclose()` clears all registrations
after running the callbacks, so a second close fires nothing. -/
def registryClose (_ : Registry) : Registry :=
  { regs := [] }

/-- The external `svcs.Container`: the registry it was constructed over
(`None` is representable, since `thread_alt.svcs_from` can build
`Container(get_registry())` with an unbound registry), a memoisation cache
from service type to instance, and the teardown list for entered instances in
acquisition order. -/
structure Container where
  registryRef : Option Nat
  cache : List (Nat × Nat)
  teardowns : List Nat
  closed : Bool
  deriving Repr, DecidableEq, Inhabited

/-- Heap lookup by object identity. -/
def hfind {α : Type} (h : List (Nat × α)) (k : Nat) : Option α :=
  (h.find? (fun p => p.1 = k)).map (fun p => p.2)

/-- Heap update by object identity. -/
def hset {α : Type} (h : List (Nat × α)) (k : Nat) (v : α) : List (Nat × α) :=
  h.map (fun p => if p.1 = k then (k, v) else p)

/-- The external `svcs.Container.get` for one service type: return the cached
instance if present, otherwise resolve via the registry's registration
(caching the result, and recording a teardown when `enter` applies), yielding
the instance, the updated container and the updated identity counter. -/
def containerResolve (c : Container) (r : Registry) (svcType nextId : Nat) :
    Option (Nat × Container × Nat) :=
  match c.cache.find? (fun p => p.1 = svcType) with
  | some p => some (p.2, c, nextId)
  | none =>
    match r.regs.find? (fun reg => reg.svcType = svcType) with
    | none => none
    | some reg =>
      match reg.provider with
      | .value v =>
        some (v, { c with cache := c.cache ++ [(svcType, v)],
                          teardowns := if reg.enter then c.teardowns ++ [v] else c.teardowns },
              nextId)
      | .factory =>
        some (nextId, { c with cache := c.cache ++ [(svcType, nextId)],
                               teardowns := if reg.enter then c.teardowns ++ [nextId] else c.teardowns },
              nextId + 1)

/-- The external `svcs.Container.close()`: run the recorded teardowns in
reverse acquisition order and mark the container closed. Present in the model
because the spec talks about it; the embedded repository code never calls it. -/
def containerCloseEvents (c : Container) : List Event :=
  c.teardowns.reverse.map Event.containerTeardown

end Svcs

namespace Svcs.Thread

/-! The thread-affine variant, `src/svcs/thread.py`. -/

/-- Callables `thread.py` hands to `atexit.register`. -/
inductive Hook where
  | closeRegistryHook
  | acloseRegistryHook
  deriving Repr, DecidableEq

/-- Whether the registered callable is a coroutine function (`async def`):
`aclose_registry` is, `close_registry` is not. -/
def hookIsCoroutineFn : Hook → Bool
  | .closeRegistryHook => false
  | .acloseRegistryHook => true

/-- State of one thread running `thread.py`.

`threadRegistry` / `threadContainer` are the `registry` / `container`
attributes of the `current_thread()` object (`none` = attribute absent).
`funcContainerAttr` is the `container` attribute of the `current_thread`
FUNCTION object itself, which line 38 of `thread.py` reads via
`getattr(current_thread, "container", None)`; no code ever assigns it. -/
structure State where
  threadRegistry : Option Nat
  threadContainer : Option Nat
  funcContainerAttr : Option Nat
  registries : List (Nat × Registry)
  containers : List (Nat × Container)
  hooks : List Hook
  events : List Event
  nextId : Nat
  deriving Repr, DecidableEq

/-- The state of a freshly started thread: no attributes set, empty heaps. -/
def state0 : State :=
  { threadRegistry := none, threadContainer := none, funcContainerAttr := none,
    registries := [], containers := [], hooks := [], events := [], nextId := 0 }

/-- `thread.get_registry`: `cast(Any, current_thread()).registry` raises
`AttributeError` when the thread has no `registry` attribute. -/
def get_registry (s : State) : Except Err Nat × State :=
  match s.threadRegistry with
  | none => (.error .attributeError, s)
  | some rid => (.ok rid, s)

/-- `thread.svcs_from`: the guard is `getattr(current_thread, "container",
None) is None`, an attribute of the `current_thread` function object, not of
the running thread; when that attribute is absent, a new `svcs.Container` is
built from `get_registry()`, stored on the thread object, and returned. -/
def svcs_from (s : State) : Except Err Nat × State :=
  match s.funcContainerAttr with
  | none =>
    match get_registry s with
    | (.error e, s1) => (.error e, s1)
    | (.ok rid, s1) =>
      let cid := s1.nextId
      let c : Container := { registryRef := some rid, cache := [], teardowns := [], closed := false }
      (.ok cid,
        { s1 with containers := s1.containers ++ [(cid, c)],
                  threadContainer := some cid, nextId := s1.nextId + 1 })
  | some _ =>
    match s.threadContainer with
    | none => (.error .attributeError, s)
    | some cid => (.ok cid, s)

/-- `thread.init_app`: sets the thread's `registry` attribute (a fresh
`svcs.Registry()` when none is passed) and registers `close_registry` with
`atexit`. There is no double-initialization check. -/
def init_app (reg : Option Nat) (s : State) : Except Err Unit × State :=
  match reg with
  | some rid =>
    (.ok (), { s with threadRegistry := some rid, hooks := s.hooks ++ [.closeRegistryHook] })
  | none =>
    let rid := s.nextId
    (.ok (), { s with registries := s.registries ++ [(rid, { regs := [] })],
                      threadRegistry := some rid, nextId := s.nextId + 1,
                      hooks := s.hooks ++ [.closeRegistryHook] })

/-- `thread.ainit_app`: same binding as `init_app`, but registers the
coroutine function `aclose_registry` with `atexit`. -/
def ainit_app (reg : Option Nat) (s : State) : Except Err Unit × State :=
  match reg with
  | some rid =>
    (.ok (), { s with threadRegistry := some rid, hooks := s.hooks ++ [.acloseRegistryHook] })
  | none =>
    let rid := s.nextId
    (.ok (), { s with registries := s.registries ++ [(rid, { regs := [] })],
                      threadRegistry := some rid, nextId := s.nextId + 1,
                      hooks := s.hooks ++ [.acloseRegistryHook] })

/-- `thread.close_registry`: `with suppress(KeyError): get_registry().close()`.
When no registry is bound, `get_registry` raises `AttributeError`, which
`suppress(KeyError)` does not catch. -/
def close_registry (s : State) : Except Err Unit × State :=
  match get_registry s with
  | (.error e, s1) => if e = .keyError then (.ok (), s1) else (.error e, s1)
  | (.ok rid, s1) =>
    let r := (hfind s1.registries rid).getD default
    (.ok (), { s1 with registries := hset s1.registries rid (registryClose r),
                       events := s1.events ++ registryCloseEvents r })

/-- The body of the coroutine `thread.aclose_registry`, as executed when the
coroutine is actually awaited: `with suppress(KeyError): await
get_registry().aclose()`. -/
def aclose_registry_body (s : State) : Except Err Unit × State :=
  match get_registry s with
  | (.error e, s1) => if e = .keyError then (.ok (), s1) else (.error e, s1)
  | (.ok rid, s1) =>
    let r := (hfind s1.registries rid).getD default
    (.ok (), { s1 with registries := hset s1.registries rid (registryClose r),
                       events := s1.events ++ registryCloseEvents r })

/-- What the `atexit` machinery does to one registered callable at interpreter
shutdown: a plain synchronous call. Calling a coroutine function merely
creates a coroutine object without running any of its body, so it leaves the
state untouched; an ordinary function's body runs. -/
def atexitCall (f : Hook) (s : State) : Except Err Unit × State :=
  if hookIsCoroutineFn f then (.ok (), s)
  else close_registry s

/-- `thread.get` for a single service type: `svcs_from().get(T)`, where the
resolution itself is the external `svcs.Container.get`. -/
def get1 (svcType : Nat) (s : State) : Except Err Nat × State :=
  match svcs_from s with
  | (.error e, s1) => (.error e, s1)
  | (.ok cid, s1) =>
    let c := (hfind s1.containers cid).getD default
    match c.registryRef with
    | none => (.error .attributeError, s1)
    | some rid =>
      let r := (hfind s1.registries rid).getD default
      match containerResolve c r svcType s1.nextId with
      | none => (.error .serviceNotFound, s1)
      | some (inst, c1, nid) =>
        (.ok inst, { s1 with containers := hset s1.containers cid c1, nextId := nid })

end Svcs.Thread

namespace Svcs.ThreadAlt

/-! The context-propagated variant, `src/svcs/thread_alt.py`. -/

/-- Callables `thread_alt.py` hands to `atexit.register`. -/
inductive Hook where
  | closeRegistryHook
  | acloseRegistryHook
  deriving Repr, DecidableEq

/-- Whether the registered callable is a coroutine function (`async def`):
`aclose_registry` is, `close_registry` is not. -/
def hookIsCoroutineFn : Hook → Bool
  | .closeRegistryHook => false
  | .acloseRegistryHook => true

/-- A `contextvars.ContextVar` as seen from a single logical context: an
object identity (relevant to the "cell identity" claims) and the value
readable in this context. `value = none` covers both "never set" and
"set to `None`", which `get(None)` cannot distinguish. -/
structure Cell where
  cellId : Nat
  value : Option Nat
  deriving Repr, DecidableEq

/-- State of one logical context running `thread_alt.py`.

`registryVar` and `containerVar` are the module-level globals
`REGISTRY_VAR` / `CONTAINER_VAR` (`none` = the global is `None`). -/
structure State where
  registryVar : Option Cell
  containerVar : Option Cell
  registries : List (Nat × Registry)
  containers : List (Nat × Container)
  hooks : List Hook
  events : List Event
  nextId : Nat
  deriving Repr, DecidableEq

/-- The state of a freshly imported module: both globals are `None`. -/
def state0 : State :=
  { registryVar := none, containerVar := none,
    registries := [], containers := [], hooks := [], events := [], nextId := 0 }

/-- `thread_alt.get_registry`: lazily creates the `REGISTRY_VAR` cell when the
global is `None`, then returns `REGISTRY_VAR.get(None)`. It never raises and
returns Python `None` when no registry has been bound. -/
def get_registry (s : State) : Option Nat × State :=
  match s.registryVar with
  | none =>
    (none, { s with registryVar := some { cellId := s.nextId, value := none },
                    nextId := s.nextId + 1 })
  | some cell => (cell.value, s)

/-- `thread_alt.svcs_from`: lazily creates the `CONTAINER_VAR` cell; when its
value is unset or `None`, builds `svcs.Container(get_registry())` — even when
`get_registry()` returns `None` — stores it in the cell and returns it;
otherwise returns the cached container. (The trailing
`raise RuntimeError("Container not initialized.")` in the source is
unreachable: the cell value has just been read or set.) -/
def svcs_from (s : State) : Except Err Nat × State :=
  let cs : Cell × State :=
    match s.containerVar with
    | none =>
      ({ cellId := s.nextId, value := none },
        { s with containerVar := some { cellId := s.nextId, value := none },
                 nextId := s.nextId + 1 })
    | some cell => (cell, s)
  match cs.1.value with
  | some cid => (.ok cid, cs.2)
  | none =>
    let rs := get_registry cs.2
    let cid := rs.2.nextId
    let c : Container := { registryRef := rs.1, cache := [], teardowns := [], closed := false }
    (.ok cid,
      { rs.2 with containers := rs.2.containers ++ [(cid, c)],
                  containerVar := some { cellId := cs.1.cellId, value := some cid },
                  nextId := rs.2.nextId + 1 })

/-- `thread_alt.init_app`: raises `RuntimeError("Application already
initialized.")` when `prevent_double_init` holds and the module-level
`REGISTRY_VAR` is not `None` — a test of the cell's existence, not of whether
a registry value is bound — and otherwise rebinds `REGISTRY_VAR` to a
brand-new `ContextVar`, sets the registry (a fresh one when none is passed)
and registers `close_registry` with `atexit`. -/
def init_app (reg : Option Nat) (preventDoubleInit : Bool) (s : State) :
    Except Err Unit × State :=
  if preventDoubleInit ∧ s.registryVar ≠ none then
    (.error (.runtimeError "Application already initialized."), s)
  else
    let cellId := s.nextId
    let s1 : State := { s with nextId := s.nextId + 1 }
    let rs : Nat × State :=
      match reg with
      | some rid => (rid, s1)
      | none =>
        (s1.nextId, { s1 with registries := s1.registries ++ [(s1.nextId, { regs := [] })],
                              nextId := s1.nextId + 1 })
    (.ok (), { rs.2 with registryVar := some { cellId := cellId, value := some rs.1 },
                         hooks := rs.2.hooks ++ [.closeRegistryHook] })

/-- `thread_alt.ainit_app`: same double-initialization check as `init_app`,
but creates the `REGISTRY_VAR` cell only if the global is `None` (reusing the
existing cell otherwise), sets its value, and registers the coroutine
function `aclose_registry` with `atexit`. -/
def ainit_app (reg : Option Nat) (preventDoubleInit : Bool) (s : State) :
    Except Err Unit × State :=
  if preventDoubleInit ∧ s.registryVar ≠ none then
    (.error (.runtimeError "Application already initialized."), s)
  else
    let cs : Cell × State :=
      match s.registryVar with
      | none =>
        ({ cellId := s.nextId, value := none },
          { s with registryVar := some { cellId := s.nextId, value := none },
                   nextId := s.nextId + 1 })
      | some cell => (cell, s)
    let rs : Nat × State :=
      match reg with
      | some rid => (rid, cs.2)
      | none =>
        (cs.2.nextId, { cs.2 with registries := cs.2.registries ++ [(cs.2.nextId, { regs := [] })],
                                  nextId := cs.2.nextId + 1 })
    (.ok (), { rs.2 with registryVar := some { cellId := cs.1.cellId, value := some rs.1 },
                         hooks := rs.2.hooks ++ [.acloseRegistryHook] })

/-- `thread_alt.close_registry`: inside `suppress(KeyError)`, fetches the
registry (`None` when unbound) and closes it only if truthy; a no-op when
nothing is bound. -/
def close_registry (s : State) : Except Err Unit × State :=
  let rs := get_registry s
  match rs.1 with
  | none => (.ok (), rs.2)
  | some rid =>
    let r := (hfind rs.2.registries rid).getD default
    (.ok (), { rs.2 with registries := hset rs.2.registries rid (registryClose r),
                         events := rs.2.events ++ registryCloseEvents r })

/-- The body of the coroutine `thread_alt.aclose_registry`, as executed when
awaited: `with suppress(KeyError): await get_registry().aclose()`. When
`get_registry()` returns `None`, the attribute access `.aclose` raises
`AttributeError`, which `suppress(KeyError)` does not catch. -/
def aclose_registry_body (s : State) : Except Err Unit × State :=
  let rs := get_registry s
  match rs.1 with
  | none => (.error .attributeError, rs.2)
  | some rid =>
    let r := (hfind rs.2.registries rid).getD default
    (.ok (), { rs.2 with registries := hset rs.2.registries rid (registryClose r),
                         events := rs.2.events ++ registryCloseEvents r })

/-- What the `atexit` machinery does to one registered callable at interpreter
shutdown: a plain synchronous call; calling a coroutine function creates a
coroutine object without running its body. -/
def atexitCall (f : Hook) (s : State) : Except Err Unit × State :=
  if hookIsCoroutineFn f then (.ok (), s)
  else close_registry s

/-- `thread_alt.get` for a single service type: `svcs_from().get(T)`; when the
container was built over registry `None`, the resolution's registry attribute
access raises `AttributeError`. -/
def get1 (svcType : Nat) (s : State) : Except Err Nat × State :=
  match svcs_from s with
  | (.error e, s1) => (.error e, s1)
  | (.ok cid, s1) =>
    let c := (hfind s1.containers cid).getD default
    match c.registryRef with
    | none => (.error .attributeError, s1)
    | some rid =>
      let r := (hfind s1.registries rid).getD default
      match containerResolve c r svcType s1.nextId with
      | none => (.error .serviceNotFound, s1)
      | some (inst, c1, nid) =>
        (.ok inst, { s1 with containers := hset s1.containers cid c1, nextId := nid })

/-- `thread_alt.get_pings`: `svcs_from().get_pings()`; the external
`svcs.Container.get_pings` enumerates the registry's ping-bearing
registrations, so a container built over registry `None` raises
`AttributeError`. -/
def get_pings (s : State) : Except Err (List Nat) × State :=
  match svcs_from s with
  | (.error e, s1) => (.error e, s1)
  | (.ok cid, s1) =>
    let c := (hfind s1.containers cid).getD default
    match c.registryRef with
    | none => (.error .attributeError, s1)
    | some rid =>
      let r := (hfind s1.registries rid).getD default
      (.ok ((r.regs.filter (fun reg => reg.ping)).map (fun reg => reg.svcType)), s1)

/-- `thread_alt.close_and_release_registry`: `get_registry().close()` — an
`AttributeError` when the registry is unbound — then sets `REGISTRY_VAR`'s
value to `None` and resets the global to `None`, and does the same for
`CONTAINER_VAR`. -/
def close_and_release_registry (s : State) : Except Err Unit × State :=
  let rs := get_registry s
  match rs.1 with
  | none => (.error .attributeError, rs.2)
  | some rid =>
    let r := (hfind rs.2.registries rid).getD default
    (.ok (), { rs.2 with registries := hset rs.2.registries rid (registryClose r),
                         events := rs.2.events ++ registryCloseEvents r,
                         registryVar := none, containerVar := none })

/-- `thread_alt.aclose_and_release_registry`: `await get_registry().aclose()`,
then clears `REGISTRY_VAR` only; `CONTAINER_VAR` is left untouched. -/
def aclose_and_release_registry (s : State) : Except Err Unit × State :=
  let rs := get_registry s
  match rs.1 with
  | none => (.error .attributeError, rs.2)
  | some rid =>
    let r := (hfind rs.2.registries rid).getD default
    (.ok (), { rs.2 with registries := hset rs.2.registries rid (registryClose r),
                         events := rs.2.events ++ registryCloseEvents r,
                         registryVar := none })

/-- `thread_alt.dependency_injection_context`: `init_app` on entry; on every
exit path, normal or raising, the `finally` block runs
`close_and_release_registry`; an exception raised there replaces the body's
exception, as in Python. -/
def dependency_injection_context (reg : Option Nat)
    (body : State → Except Err Unit × State) (s : State) :
    Except Err Unit × State :=
  match init_app reg true s with
  | (.error e, s1) => (.error e, s1)
  | (.ok _, s1) =>
    match body s1 with
    | (.ok _, s2) => close_and_release_registry s2
    | (.error e, s2) =>
      match close_and_release_registry s2 with
      | (.ok _, s3) => (.error e, s3)
      | (.error e2, s3) => (.error e2, s3)

/-- `thread_alt.adependency_injection_context`: `ainit_app` on entry; on every
exit path the `finally` block awaits `aclose_and_release_registry`. -/
def adependency_injection_context (reg : Option Nat)
    (body : State → Except Err Unit × State) (s : State) :
    Except Err Unit × State :=
  match ainit_app reg true s with
  | (.error e, s1) => (.error e, s1)
  | (.ok _, s1) =>
    match body s1 with
    | (.ok _, s2) => aclose_and_release_registry s2
    | (.error e, s2) =>
      match aclose_and_release_registry s2 with
      | (.ok _, s3) => (.error e, s3)
      | (.error e2, s3) => (.error e2, s3)

end Svcs.ThreadAlt

namespace Svcs

/-! Concrete scenarios used to settle the claims, built like the repository's
own test (`tests/integrations/test_thread.py`): a pre-built registry with a
few registrations is handed to the scope entry points. -/

/-- Discriminator for container-teardown events. -/
def Event.isContainerTeardown : Event → Bool
  | .containerTeardown _ => true
  | .registryOnClose _ => false

/-- A registry with a single factory registration for service type 1
(`enter = True`, the `register_factory` default). -/
def regFactory : Registry :=
  { regs := [{ svcType := 1, provider := .factory, enter := true, ping := false,
               onRegistryClose := none }] }

/-- Fresh thread whose heap already holds `regFactory` as registry 0. -/
def c1s0 : Thread.State :=
  { Thread.state0 with registries := [(0, regFactory)], nextId := 1 }

/-- The thread scope after `init_app(registry=regFactory)`. -/
def c1s1 : Thread.State := (Thread.init_app (some 0) c1s0).2

/-- First `get(T)` for the factory service within the bound scope. -/
def c1r1 : Except Err Nat × Thread.State := Thread.get1 1 c1s1

/-- Second `get(T)` for the same service within the same scope. -/
def c1r2 : Except Err Nat × Thread.State := Thread.get1 1 c1r1.2

/-- A registry with factory registrations A, B, C for service types 1, 2, 3
(in that order), each entered, with on-registry-close callbacks 10, 11, 12. -/
def regABC : Registry :=
  { regs := [
      { svcType := 1, provider := .factory, enter := true, ping := false, onRegistryClose := some 10 },
      { svcType := 2, provider := .factory, enter := true, ping := false, onRegistryClose := some 11 },
      { svcType := 3, provider := .factory, enter := true, ping := false, onRegistryClose := some 12 }] }

/-- Fresh context whose heap already holds `regABC` as registry 0. -/
def c2s0 : ThreadAlt.State :=
  { ThreadAlt.state0 with registries := [(0, regABC)], nextId := 1 }

/-- The context-propagated scope after `init_app(registry=regABC)`. -/
def c2sA : ThreadAlt.State := (ThreadAlt.init_app (some 0) true c2s0).2

/-- The scope after resolving A, then B, then C (instances 4, 5, 6). -/
def c2sD : ThreadAlt.State :=
  (ThreadAlt.get1 3 (ThreadAlt.get1 2 (ThreadAlt.get1 1 c2sA).2).2).2

/-- Closing the scope via `close_and_release_registry`. -/
def c2Final : Except Err Unit × ThreadAlt.State :=
  ThreadAlt.close_and_release_registry c2sD

/-- A state with a bound registry value and a cached container, used to
instantiate the double-initialization theorem. -/
def c3W : ThreadAlt.State :=
  { ThreadAlt.state0 with
      registryVar := some { cellId := 0, value := some 5 },
      containerVar := some { cellId := 1, value := some 7 },
      nextId := 2 }

/-- A registry holding value 9 for service type 1. -/
def regValue : Registry :=
  { regs := [{ svcType := 1, provider := .value 9, enter := false, ping := false,
               onRegistryClose := none }] }

/-- Fresh context whose heap already holds `regValue` as registry 0. -/
def c4s0 : ThreadAlt.State :=
  { ThreadAlt.state0 with registries := [(0, regValue)], nextId := 1 }

/-- A block body that resolves service type 1 once. -/
def c4Body : ThreadAlt.State → Except Err Unit × ThreadAlt.State := fun s =>
  match ThreadAlt.get1 1 s with
  | (.ok _, s1) => (.ok (), s1)
  | (.error e, s1) => (.error e, s1)

/-- Running the body under the asynchronous scoped block. -/
def c4Async : Except Err Unit × ThreadAlt.State :=
  ThreadAlt.adependency_injection_context (some 0) c4Body c4s0

/-- Running the same body under the synchronous scoped block. -/
def c4Sync : Except Err Unit × ThreadAlt.State :=
  ThreadAlt.dependency_injection_context (some 0) c4Body c4s0

/-- The context-propagated scope right after a first `init_app()`. -/
def c5s1 : ThreadAlt.State := (ThreadAlt.init_app none true ThreadAlt.state0).2

/-- The scope after a first successful `init_app(prevent_double_init=False)`. -/
def c8s1 : ThreadAlt.State := (ThreadAlt.init_app none false ThreadAlt.state0).2

/-- A second `init_app(prevent_double_init=False)` while the first scope's
registry is still bound. -/
def c8s2 : ThreadAlt.State := (ThreadAlt.init_app none false c8s1).2

/-- For contrast: a second `ainit_app(prevent_double_init=False)` from the
same state, which reuses the existing cell. -/
def c8a2 : ThreadAlt.State := (ThreadAlt.ainit_app none false c8s1).2

/-- A registry with an on-registry-close callback 10, bound on a thread. -/
def regCb : Registry :=
  { regs := [{ svcType := 1, provider := .value 9, enter := false, ping := false,
               onRegistryClose := some 10 }] }

/-- A thread scope with `regCb` bound as its registry. -/
def c10s : Thread.State :=
  { Thread.state0 with threadRegistry := some 0, registries := [(0, regCb)], nextId := 1 }

end Svcs

namespace Svcs

/-! Claim theorems. -/

/-- Claim C1 (code bug at the failing input): in the thread-affine variant,
within one bound scope the first and the second `get(T)` for the registered
factory service type 1 return DISTINCT instances (2, then 4), and the two
calls build two distinct containers (1, then 3): `svcs_from` constructs a new
container on every call, because its guard reads the `container` attribute of
the `current_thread` function object, which is never assigned, instead of the
attribute of the running thread. -/
theorem C1_thread_get_not_idempotent :
    c1r1.1 = Except.ok 2 ∧ c1r2.1 = Except.ok 4 ∧
    c1r1.2.threadContainer = some 1 ∧ c1r2.2.threadContainer = some 3 ∧
    (2 : Nat) ≠ 4 ∧ (1 : Nat) ≠ 3 :=
  ⟨rfl, rfl, rfl, rfl, by decide, by decide⟩

/-- Claim C2 (code bug at the failing input): after resolving A, B, C (the
container records teardowns for instances 4, 5, 6 in acquisition order),
`close_and_release_registry` releases the registry binding having run only
the registry's on-registry-close callbacks (events 12, 11, 10): no
container-teardown event is ever produced, and the scope's container is left
unclosed with its teardown list unrun — the claim's reverse-order container
teardown, `containerCloseEvents`, never happens. -/
theorem C2_container_teardowns_never_run :
    hfind c2sD.containers 3
      = some { registryRef := some 0, cache := [(1, 4), (2, 5), (3, 6)],
               teardowns := [4, 5, 6], closed := false } ∧
    c2Final.1 = Except.ok () ∧
    c2Final.2.registryVar = none ∧ c2Final.2.containerVar = none ∧
    c2Final.2.events
      = [Event.registryOnClose 12, Event.registryOnClose 11, Event.registryOnClose 10] ∧
    c2Final.2.events.filter Event.isContainerTeardown = [] ∧
    hfind c2Final.2.containers 3
      = some { registryRef := some 0, cache := [(1, 4), (2, 5), (3, 6)],
               teardowns := [4, 5, 6], closed := false } :=
  ⟨rfl, rfl, rfl, rfl, rfl, rfl, rfl⟩

/-- Claim C3 counterexample: in the thread-affine variant, a second `init_app`
on an already-bound scope raises nothing — it succeeds and silently rebinds
the thread's registry from 0 to a fresh registry 1, contradicting the claimed
immediate `AlreadyInitializedError`. -/
theorem C3_counterexample_thread_double_init_succeeds :
    (Thread.init_app none (Thread.init_app none Thread.state0).2).1 = Except.ok () ∧
    (Thread.init_app none Thread.state0).2.threadRegistry = some 0 ∧
    (Thread.init_app none (Thread.init_app none Thread.state0).2).2.threadRegistry = some 1 :=
  ⟨rfl, rfl, rfl⟩

/-- Claim C3 as amended: only in the context-propagated variant does a second
`init_app` without opt-out fail fast, raising `RuntimeError("Application
already initialized.")` with the state completely unchanged — so the first
binding, and its container once created, remain intact, and `svcs_from`
still resolves to the cached container. -/
theorem C3_alt_double_init_fail_fast (s : ThreadAlt.State) (reg : Option Nat)
    (h : s.registryVar ≠ none) :
    ThreadAlt.init_app reg true s
      = (Except.error (Err.runtimeError "Application already initialized."), s) ∧
    ∀ cell cid, s.containerVar = some cell → cell.value = some cid →
      ThreadAlt.svcs_from s = (Except.ok cid, s) := by
  constructor
  · simp [ThreadAlt.init_app, h]
  · intro cell cid hc hv
    simp [ThreadAlt.svcs_from, hc, hv]

/-- Witness for `C3_alt_double_init_fail_fast` at the concrete bound state
`c3W` (registry value 5 bound, container 7 cached). -/
theorem C3_alt_double_init_fail_fast_witness :
    ThreadAlt.init_app none true c3W
      = (Except.error (Err.runtimeError "Application already initialized."), c3W) ∧
    ThreadAlt.svcs_from c3W = (Except.ok 7, c3W) := by
  obtain ⟨h1, h2⟩ := C3_alt_double_init_fail_fast c3W none (by decide)
  exact ⟨h1, h2 { cellId := 1, value := some 7 } 7 rfl rfl⟩

/-- Claim C4 (code bug at the failing input): running a body that resolves a
service under the asynchronous scoped block ends with the registry reference
cleared but the container reference still set (`CONTAINER_VAR` keeps cell 2
holding container 3) — `aclose_and_release_registry` never clears
`CONTAINER_VAR` — while the synchronous scoped block running the same body
clears both references. -/
theorem C4_async_block_keeps_container_reference :
    c4Async.1 = Except.ok () ∧
    c4Async.2.registryVar = none ∧
    c4Async.2.containerVar = some { cellId := 2, value := some 3 } ∧
    c4Sync.1 = Except.ok () ∧
    c4Sync.2.registryVar = none ∧
    c4Sync.2.containerVar = none :=
  ⟨rfl, rfl, rfl, rfl, rfl, rfl⟩

/-- Claim C5 counterexample: `init_app` registers the `close_registry` atexit
hook, and closing the scope leaves that hook exactly in place — no
`atexit.unregister` call exists anywhere, so close does not unregister the
shutdown hook. -/
theorem C5_counterexample_close_keeps_atexit_hook :
    c5s1.hooks = [ThreadAlt.Hook.closeRegistryHook] ∧
    (ThreadAlt.close_and_release_registry c5s1).1 = Except.ok () ∧
    (ThreadAlt.close_and_release_registry c5s1).2.hooks
      = [ThreadAlt.Hook.closeRegistryHook] :=
  ⟨rfl, rfl, rfl⟩

/-- Claim C5 as amended: closing a scope does NOT unregister the shutdown
hook (the hook list is unchanged by `close_and_release_registry`), and
closing a scope twice performs the underlying teardown actions at most once —
the second close finds the binding released and raises `AttributeError`
without producing any further teardown event. -/
theorem C5_close_keeps_hook_and_no_double_teardown (s : ThreadAlt.State)
    (h : (ThreadAlt.close_and_release_registry s).1 = Except.ok ()) :
    (ThreadAlt.close_and_release_registry s).2.hooks = s.hooks ∧
    (ThreadAlt.close_and_release_registry (ThreadAlt.close_and_release_registry s).2).1
      = Except.error Err.attributeError ∧
    (ThreadAlt.close_and_release_registry (ThreadAlt.close_and_release_registry s).2).2.events
      = (ThreadAlt.close_and_release_registry s).2.events := by
  cases hr : s.registryVar with
  | none => simp [ThreadAlt.close_and_release_registry, ThreadAlt.get_registry, hr] at h
  | some cell =>
    cases hv : cell.value with
    | none =>
      simp [ThreadAlt.close_and_release_registry, ThreadAlt.get_registry, hr, hv] at h
    | some rid =>
      simp [ThreadAlt.close_and_release_registry, ThreadAlt.get_registry, hr, hv]

/-- Witness for `C5_close_keeps_hook_and_no_double_teardown` at the concrete
initialized scope `c5s1`. -/
theorem C5_close_keeps_hook_and_no_double_teardown_witness :
    (ThreadAlt.close_and_release_registry c5s1).2.hooks = c5s1.hooks ∧
    (ThreadAlt.close_and_release_registry (ThreadAlt.close_and_release_registry c5s1).2).1
      = Except.error Err.attributeError ∧
    (ThreadAlt.close_and_release_registry (ThreadAlt.close_and_release_registry c5s1).2).2.events
      = (ThreadAlt.close_and_release_registry c5s1).2.events :=
  C5_close_keeps_hook_and_no_double_teardown c5s1 rfl

/-- Claim C6 counterexample: in the context-propagated variant with nothing
bound, `get_registry` does not fail at all — it returns Python `None` as a
value (after lazily creating the cell) — contradicting the claimed
`NotInitializedError`. -/
theorem C6_counterexample_alt_get_registry_returns_value :
    ThreadAlt.get_registry ThreadAlt.state0
      = (none, { ThreadAlt.state0 with
                   registryVar := some { cellId := 0, value := none }, nextId := 1 }) :=
  rfl

/-- Claim C6 as amended: with no registry bound, the context-propagated
`get_registry` returns `None` without raising, and the thread-affine
`get_registry` raises `AttributeError`; no `NotInitializedError` exists in
the code. -/
theorem C6_unbound_get_registry_behavior (sa : ThreadAlt.State) (st : Thread.State)
    (ha : ∀ cell, sa.registryVar = some cell → cell.value = none)
    (ht : st.threadRegistry = none) :
    (ThreadAlt.get_registry sa).1 = none ∧
    Thread.get_registry st = (Except.error Err.attributeError, st) := by
  constructor
  · cases hr : sa.registryVar with
    | none => simp [ThreadAlt.get_registry, hr]
    | some cell => simp [ThreadAlt.get_registry, hr, ha cell hr]
  · simp [Thread.get_registry, ht]

/-- Witness for `C6_unbound_get_registry_behavior` at the two fresh states. -/
theorem C6_unbound_get_registry_behavior_witness :
    (ThreadAlt.get_registry ThreadAlt.state0).1 = none ∧
    Thread.get_registry Thread.state0
      = (Except.error Err.attributeError, Thread.state0) :=
  C6_unbound_get_registry_behavior ThreadAlt.state0 Thread.state0
    (by intro cell hcell; simp [ThreadAlt.state0] at hcell) rfl

/-- Claim C7 (code bug at the failing input): in the thread-affine variant,
`close_registry` with nothing bound raises `AttributeError` — the
`suppress(KeyError)` guard does not catch the `AttributeError` coming from
the missing `registry` attribute — while the context-propagated variant's
`close_registry` is the intended no-op. -/
theorem C7_thread_close_registry_unbound_raises :
    Thread.close_registry Thread.state0
      = (Except.error Err.attributeError, Thread.state0) ∧
    ThreadAlt.close_registry ThreadAlt.state0
      = (Except.ok (), { ThreadAlt.state0 with
                           registryVar := some { cellId := 0, value := none },
                           nextId := 1 }) :=
  ⟨rfl, rfl⟩

/-- Claim C8 (code bug at the failing input): a first
`init_app(prevent_double_init=False)` binds registry 1 in cell 0; a second
such call, made while that scope is still active, rebinds `REGISTRY_VAR` to a
brand-new `ContextVar` (cell 2) instead of mutating cell 0's value; by
contrast `ainit_app` from the same state reuses cell 0 and only sets its
value. -/
theorem C8_sync_init_recreates_cell_identity :
    c8s1.registryVar = some { cellId := 0, value := some 1 } ∧
    c8s2.registryVar = some { cellId := 2, value := some 3 } ∧
    c8a2.registryVar = some { cellId := 0, value := some 2 } ∧
    (0 : Nat) ≠ 2 :=
  ⟨rfl, rfl, rfl, by decide⟩

/-- Claim C9: each of `get_registry`, `svcs_from`, `get`, `close_registry`
and `get_pings`, called on the fresh context-propagated module state, creates
the module-level `REGISTRY_VAR` cell as a side effect while binding no
registry value (the created cell's value is `none` in every case), after
which a FIRST `init_app` with the default `prevent_double_init=True` raises
`RuntimeError("Application already initialized.")`: the double-init check
tests the cell's existence, not whether a registry is bound. -/
theorem C9_pre_init_use_poisons_double_init_check :
    (ThreadAlt.get_registry ThreadAlt.state0).2.registryVar
      = some { cellId := 0, value := none } ∧
    (ThreadAlt.init_app none true (ThreadAlt.get_registry ThreadAlt.state0).2).1
      = Except.error (Err.runtimeError "Application already initialized.") ∧
    (ThreadAlt.svcs_from ThreadAlt.state0).2.registryVar
      = some { cellId := 1, value := none } ∧
    (ThreadAlt.init_app none true (ThreadAlt.svcs_from ThreadAlt.state0).2).1
      = Except.error (Err.runtimeError "Application already initialized.") ∧
    (ThreadAlt.get1 7 ThreadAlt.state0).2.registryVar
      = some { cellId := 1, value := none } ∧
    (ThreadAlt.init_app none true (ThreadAlt.get1 7 ThreadAlt.state0).2).1
      = Except.error (Err.runtimeError "Application already initialized.") ∧
    (ThreadAlt.close_registry ThreadAlt.state0).2.registryVar
      = some { cellId := 0, value := none } ∧
    (ThreadAlt.init_app none true (ThreadAlt.close_registry ThreadAlt.state0).2).1
      = Except.error (Err.runtimeError "Application already initialized.") ∧
    (ThreadAlt.get_pings ThreadAlt.state0).2.registryVar
      = some { cellId := 1, value := none } ∧
    (ThreadAlt.init_app none true (ThreadAlt.get_pings ThreadAlt.state0).2).1
      = Except.error (Err.runtimeError "Application already initialized.") :=
  ⟨rfl, rfl, rfl, rfl, rfl, rfl, rfl, rfl, rfl, rfl⟩

/-- Claim C10: `ainit_app` registers exactly the coroutine function
`aclose_registry` as the atexit hook; at interpreter shutdown the atexit
machinery performs a plain call, which for a coroutine function creates a
coroutine without running its body, leaving the state untouched — so the hook
performs no teardown — whereas actually awaiting the body on a bound scope
would close the registry (firing callback 10 in the `c10s` scenario). -/
theorem C10_async_atexit_hook_is_inert :
    (∀ (s : Thread.State) (reg : Option Nat),
      (Thread.ainit_app reg s).2.hooks = s.hooks ++ [Thread.Hook.acloseRegistryHook]) ∧
    Thread.hookIsCoroutineFn Thread.Hook.acloseRegistryHook = true ∧
    (∀ s : Thread.State,
      Thread.atexitCall Thread.Hook.acloseRegistryHook s = (Except.ok (), s)) ∧
    (Thread.aclose_registry_body c10s).2.events = [Event.registryOnClose 10] := by
  refine ⟨?_, rfl, ?_, rfl⟩
  · intro s reg; cases reg <;> simp [Thread.ainit_app]
  · intro s; rfl

end Svcs
